import Mathlib

/-!
Verification development for the jarvis-backend assessment engine.

The definitions below are shallow embeddings of the TypeScript source:

* part_002 (AssessmentService): evaluateTextAnswer, the finish scoring
  pipeline of the standalone assessment flow;
* src/assessment.service.ts (legacy AssessmentService): the fixed
  25-question finish scoring;
* src/gamification.controller.ts (StudentAssessmentService):
  validateAndScoreResponse, prepareQuestionOptions, shuffleArray,
  getAssessmentSession, submitResponse, expireSession, finishAssessment;
* src/student-assessment.controller.ts (StudentAssessmentController):
  validateStudentCanStartAssessment.

JavaScript strings are modelled by Lean String; null/undefined string
values by Option String; machine numbers by Nat (all quantities involved
are small non-negative integers).  JS s.includes(t) is modelled by
jsIncludes, s.trim() by jsTrim, s.toLowerCase() by jsToLower.
-/

namespace Jarvis

/-- Whitespace characters removed by JS String.prototype.trim (the ASCII
ones; the evaluators only ever see ordinary text). -/
def jsIsWhitespace (c : Char) : Bool :=
  c == ' ' || c == '\t' || c == '\n' || c == '\r' || c == '\x0b' || c == '\x0c'

/-- Drop leading whitespace from a character list. -/
def dropLeadingWs : List Char → List Char
  | [] => []
  | c :: t => if jsIsWhitespace c then dropLeadingWs t else c :: t

/-- Model of JavaScript s.trim(): strip whitespace from both ends. -/
def jsTrim (s : String) : String :=
  ⟨dropLeadingWs ((dropLeadingWs s.data.reverse).reverse)⟩

/-- Model of JavaScript s.toLowerCase() (ASCII case folding). -/
def jsToLower (s : String) : String :=
  ⟨s.data.map Char.toLower⟩

/-- listStartsWith needle hay decides whether needle is an initial
segment of hay (character lists). -/
def listStartsWith : List Char → List Char → Bool
  | [], _ => true
  | _ :: _, [] => false
  | a :: as, b :: bs => a == b && listStartsWith as bs

/-- listOccurs needle hay decides whether needle occurs as a contiguous
substring of hay. -/
def listOccurs (needle : List Char) : List Char → Bool
  | [] => listStartsWith needle []
  | h :: t => listStartsWith needle (h :: t) || listOccurs needle t

/-- Model of JavaScript hay.includes(needle): substring containment. -/
def jsIncludes (hay needle : String) : Bool :=
  listOccurs needle.data hay.data

/-- The empty needle occurs in every haystack, as in JavaScript. -/
theorem jsIncludes_empty (hay : String) : jsIncludes hay "" = true := by
  unfold jsIncludes
  cases hay.data with
  | nil => rfl
  | cons h t => rfl

/-- Math.ceil(n / 2) for a natural number n. -/
def ceilHalf (n : Nat) : Nat := (n + 1) / 2

/-- JS question.points_value || 1: null/undefined and 0 are falsy, so
both default to 1. -/
def jsPointsValue : Option Nat → Nat
  | none => 1
  | some n => if n == 0 then 1 else n

/-- Row of the assessment_text_answers table (DbTextAnswerRow in
part_002).  alternate_answers and keywords are nullable array columns,
hence Option. -/
structure DbTextAnswerRow where
  question_id : String
  correct_answer : String
  case_sensitive : Bool
  exact_match : Bool
  alternate_answers : Option (List String)
  keywords : Option (List String)
deriving Repr, DecidableEq

/-- The normalize closure of both evaluators: identity when
case_sensitive, toLowerCase otherwise. -/
def normalizeFor (caseSensitive : Bool) (v : String) : String :=
  if caseSensitive then v else jsToLower v

/-- AssessmentService.evaluateTextAnswer from part_002, argument order as
in the source: (answer, spec).  Empty (after trim) submissions and empty
(after trim) canonical answers are never correct; exact_match compares
trimmed strings under the case_sensitive flag; otherwise substring match
against the canonical answer, then the alternate answers, then the
majority-of-keywords rule.  Array.isArray guards turn absent
alternate_answers / keywords into empty lists. -/
def evaluateTextAnswer (answer : Option String) (spec : Option DbTextAnswerRow) : Bool :=
  match spec with
  | none => false
  | some sp =>
    let submitted := jsTrim (answer.getD "")
    if submitted = "" then false
    else
      let correctAnswer := jsTrim sp.correct_answer
      if correctAnswer = "" then false
      else if sp.exact_match then
        if sp.case_sensitive then submitted == correctAnswer
        else jsToLower submitted == jsToLower correctAnswer
      else
        let answerToCheck := normalizeFor sp.case_sensitive submitted
        let correctToCheck := normalizeFor sp.case_sensitive correctAnswer
        if jsIncludes answerToCheck correctToCheck then true
        else
          let alternates := sp.alternate_answers.getD []
          if alternates.any (fun alt => jsIncludes answerToCheck (normalizeFor sp.case_sensitive alt)) then true
          else
            let keywords := sp.keywords.getD []
            if keywords.length == 0 then false
            else
              let keywordMatches := keywords.filter
                (fun keyword => jsIncludes answerToCheck (normalizeFor sp.case_sensitive keyword))
              decide (ceilHalf keywords.length ≤ keywordMatches.length)

/-- The text-matching core of
StudentAssessmentService.validateAndScoreResponse
(gamification.controller.ts lines 884-910), reached once the dto carried
a truthy text_answer and a text-answer row was found.  Returns none when
the JS would throw a TypeError: spec.alternate_answers.some(...) and
spec.keywords.length dereference nullable columns without an
Array.isArray guard (short-circuit evaluation skips them after an
earlier match, which the match structure below reproduces). -/
def validateAndScoreTextCore (spec : DbTextAnswerRow) (text_answer : String) : Option Bool :=
  let studentAnswer := jsTrim text_answer
  let correctAnswer := jsTrim spec.correct_answer
  if spec.exact_match then
    some (if spec.case_sensitive then studentAnswer == correctAnswer
          else jsToLower studentAnswer == jsToLower correctAnswer)
  else
    let answerToCheck := normalizeFor spec.case_sensitive studentAnswer
    let correctToCheck := normalizeFor spec.case_sensitive correctAnswer
    if jsIncludes answerToCheck correctToCheck then some true
    else
      match spec.alternate_answers with
      | none => none
      | some alternates =>
        if alternates.any (fun alt => jsIncludes answerToCheck (normalizeFor spec.case_sensitive alt)) then
          some true
        else
          match spec.keywords with
          | none => none
          | some keywords =>
            if 0 < keywords.length then
              some (decide (ceilHalf keywords.length ≤
                (keywords.filter (fun keyword =>
                  jsIncludes answerToCheck (normalizeFor spec.case_sensitive keyword))).length))
            else some false

/-- The full text branch of validateAndScoreResponse, including the
truthiness test on responseDto.text_answer (undefined and the empty
string are falsy) and the absent-row case of the
assessment_text_answers lookup. -/
def validateTextVerdict (spec : Option DbTextAnswerRow) (text_answer : Option String) : Option Bool :=
  match text_answer with
  | none => some false
  | some s =>
    if s = "" then some false
    else
      match spec with
      | none => some false
      | some sp => validateAndScoreTextCore sp s

/-- The normalized submission of the keyword rule: trim then case fold
per the flag, exactly the answerToCheck value of both evaluators. -/
def normSubmission (sp : DbTextAnswerRow) (s : String) : String :=
  normalizeFor sp.case_sensitive (jsTrim s)

/-- The normalized canonical answer: trim then case fold per the flag,
exactly the correctToCheck value of both evaluators. -/
def normCanonical (sp : DbTextAnswerRow) : String :=
  normalizeFor sp.case_sensitive (jsTrim sp.correct_answer)

/-- Number of configured keywords occurring as substrings of the
normalized submission, as computed by both evaluators. -/
def keywordMatchCount (sp : DbTextAnswerRow) (s : String) : Nat :=
  ((sp.keywords.getD []).filter
    (fun keyword => jsIncludes (normSubmission sp s) (normalizeFor sp.case_sensitive keyword))).length

/-- Row of assessment_question_options as selected in part_002
(DbOptionRow). -/
structure DbOptionRow where
  question_id : String
  option_text : String
  is_correct : Bool
  order_index : Option Int
deriving Repr, DecidableEq

/-- The two semantic question kinds every raw question type normalizes
into (sanitizeQuestionType in part_002). -/
inductive QuestionKind
  | mcq
  | text
deriving Repr, DecidableEq

/-- FullQuestion of part_002: a resolved question with its options or
text-answer specification attached. -/
structure FullQuestion where
  id : String
  kind : QuestionKind
  prompt : String
  points : Nat
  options : List DbOptionRow
  textAnswer : Option DbTextAnswerRow
deriving Repr, DecidableEq

/-- Value of a digit list, most significant first. -/
def natOfDigits (cs : List Char) : Nat :=
  cs.foldl (fun acc c => acc * 10 + (c.toNat - 48)) 0

/-- Optional leading sign of a numeral: (isNegative, remainder). -/
def splitSign : List Char → Bool × List Char
  | '-' :: t => (true, t)
  | '+' :: t => (false, t)
  | cs => (false, cs)

/-- Recognizes sign? digits* (dot digits*)? with at least one digit:
the decimal numerals on which JS Number(s) is finite.  Exponent and hex
forms never arise from the quiz runner and are treated as non-numeric. -/
def isSimpleNumeral (cs : List Char) : Bool :=
  let rest := (splitSign cs).2
  let ip := rest.takeWhile Char.isDigit
  match rest.dropWhile Char.isDigit with
  | [] => !ip.isEmpty
  | '.' :: fp => (!ip.isEmpty || !fp.isEmpty) && fp.all Char.isDigit
  | _ => false

/-- The mcq index computation of part_002 finish:
Number.isFinite(Number(answer)) guards parseInt(String(answer), 10).
A null answer stringifies to "null", which parseInt rejects; a numeral
without integer digits (".5") is finite for Number but NaN for parseInt. -/
def jsAnswerIndex (answer : Option String) : Option Int :=
  match answer with
  | none => none
  | some s =>
    let t := (jsTrim s).data
    if isSimpleNumeral t then
      let rest := (splitSign t).2
      let ip := rest.takeWhile Char.isDigit
      if ip.isEmpty then none
      else if (splitSign t).1 then some (-(natOfDigits ip : Int))
      else some (natOfDigits ip : Int)
    else none

/-- Correctness of an mcq response in part_002 finish: resolve
question.options[idx] and take its is_correct flag; an unresolvable
index is simply incorrect. -/
def mcqCorrect (q : FullQuestion) (answer : Option String) : Bool :=
  match jsAnswerIndex answer with
  | none => false
  | some idx =>
    if idx < 0 then false
    else
      match q.options[idx.toNat]? with
      | some opt => opt.is_correct
      | none => false

/-- The questionMap lookup of part_002 finish: a JS Map keeps the last
entry for a duplicated key, hence the reversed search. -/
def questionLookup (qs : List FullQuestion) (qid : String) : Option FullQuestion :=
  qs.reverse.find? (fun q => q.id == qid)

/-- One submitted response of the standalone finish call. -/
structure RespIn where
  q_index : Nat
  question_id : String
  answer : Option String
deriving Repr, DecidableEq

/-- Per-response correctness as computed inside the responses.map of
part_002 finish: an unknown question id is incorrect; mcq responses go
through the index lookup; text responses are trimmed and passed to
evaluateTextAnswer. -/
def responseCorrect (qs : List FullQuestion) (r : RespIn) : Bool :=
  match questionLookup qs r.question_id with
  | none => false
  | some q =>
    match q.kind with
    | .mcq => mcqCorrect q r.answer
    | .text => evaluateTextAnswer (some (jsTrim (r.answer.getD ""))) q.textAnswer

/-- PASSING_SCORE constant of part_002. -/
def PASSING_SCORE : Nat := 72

/-- Math.round((c / t) * 100) for t > 0: half-up rounding of the
rational 100 * c / t. -/
def jsRoundPct (c t : Nat) : Nat := (200 * c + t) / (2 * t)

/-- What part_002 finish returns to the caller (scoring fields). -/
structure FinishSummary where
  score : Nat
  passed : Bool
  total : Nat
  correct : Nat
deriving Repr, DecidableEq

/-- The scoring portion of AssessmentService.finish in part_002:
correctCount accumulated over the mapped responses, totalQuestions =
responses.length, score = Math.round((correctCount / totalQuestions) *
100) guarded against an empty list, passed = score >= PASSING_SCORE. -/
def finishEval (qs : List FullQuestion) (responses : List RespIn) : FinishSummary :=
  let correctCount := (responses.filter (fun r => responseCorrect qs r)).length
  let totalQuestions := responses.length
  let score := if 0 < totalQuestions then jsRoundPct correctCount totalQuestions else 0
  let passed := decide (PASSING_SCORE ≤ score)
  ⟨score, passed, totalQuestions, correctCount⟩

/-- Length of the hardcoded QUESTIONS list of the legacy standalone flow
(src/questions.ts: 25 entries). -/
def legacyTotalQuestions : Nat := 25

/-- Legacy finish score (src/src/assessment.service.ts line 124):
Math.round((correctCount / QUESTIONS.length) * 100). -/
def legacyScore (correctCount : Nat) : Nat :=
  jsRoundPct correctCount legacyTotalQuestions

/-- Legacy finish pass flag (line 123): correctCount >= 18, the comment
in the source reads 72%. -/
def legacyPassed (correctCount : Nat) : Bool :=
  decide (18 ≤ correctCount)

/-- The destructuring swap of shuffleArray: exchange positions i and j
(identity when either index is out of range). -/
def listSwap {α : Type} (l : List α) (i j : Nat) : List α :=
  match l[i]?, l[j]? with
  | some a, some b => (l.set i b).set j a
  | _, _ => l

/-- The loop of shuffleArray, counting i down to 1; the draw for index
i is rand i reduced to the range 0..i that Math.floor(Math.random() *
(i + 1)) produces. -/
def shuffleAux {α : Type} (rand : Nat → Nat) : Nat → List α → List α
  | 0, l => l
  | i + 1, l => shuffleAux rand i (listSwap l (i + 1) (rand (i + 1) % (i + 2)))

/-- StudentAssessmentService.shuffleArray: Fisher-Yates over a copy of
the input, with the random draws supplied explicitly by rand. -/
def shuffleArray {α : Type} (l : List α) (rand : Nat → Nat) : List α :=
  shuffleAux rand (l.length - 1) l

/-- Replacing position m and re-adding the displaced element in front is
a permutation. -/
theorem cons_set_perm {α : Type} (xs : List α) (m : Nat) (a b : α)
    (h : xs[m]? = some b) : List.Perm (b :: xs.set m a) (a :: xs) := by
  induction xs generalizing m with
  | nil => simp at h
  | cons y ys ih =>
    cases m with
    | zero =>
      simp at h
      rw [h]
      simpa using List.Perm.swap a b ys
    | succ m =>
      simp at h
      have step := ih m h
      have e : (y :: ys).set (m + 1) a = y :: ys.set m a := by simp
      rw [e]
      exact (List.Perm.swap y b _).trans ((step.cons y).trans (List.Perm.swap a y ys))

/-- Writing the two fetched elements back crosswise permutes the list. -/
theorem set_set_perm {α : Type} (l : List α) (i j : Nat) (a b : α)
    (h1 : l[i]? = some a) (h2 : l[j]? = some b) :
    List.Perm ((l.set i b).set j a) l := by
  induction l generalizing i j with
  | nil => simp at h1
  | cons x xs ih =>
    cases i with
    | zero =>
      simp at h1
      cases j with
      | zero =>
        rw [h1]
        simp
      | succ j =>
        simp at h2
        rw [h1]
        simpa using cons_set_perm xs j a b h2
    | succ i =>
      simp at h1
      cases j with
      | zero =>
        simp at h2
        rw [h2]
        simpa using cons_set_perm xs i b a h1
      | succ j =>
        simp at h2
        simpa using (ih i j h1 h2).cons x

/-- listSwap never changes the multiset of elements. -/
theorem listSwap_perm {α : Type} (l : List α) (i j : Nat) :
    List.Perm (listSwap l i j) l := by
  unfold listSwap
  split
  · rename_i a b h1 h2
    exact set_set_perm l i j a b h1 h2
  · exact List.Perm.refl l

/-- Each pass of the shuffle loop preserves the multiset. -/
theorem shuffleAux_perm {α : Type} (rand : Nat → Nat) :
    ∀ (i : Nat) (l : List α), List.Perm (shuffleAux rand i l) l := by
  intro i
  induction i with
  | zero => intro l; exact List.Perm.refl l
  | succ i ih =>
    intro l
    exact (ih _).trans (listSwap_perm l _ _)

/-- Session status: the closed set of the schema. -/
inductive SessionStatus
  | inProgress
  | completed
  | expired
deriving Repr, DecidableEq

/-- Row of student_assessment_sessions (the fields the engine reads).
expires_at is an epoch timestamp; every session is created with one. -/
structure SessionRow where
  id : String
  session_token : String
  student_id : String
  template_id : String
  attempt_number : Nat
  status : SessionStatus
  expires_at : Nat
deriving Repr, DecidableEq

/-- Row of assessment_questions under select=*.  The explanation column
is evidenced by submitResponse (question.explanation) and by the
getDetailedResults select list. -/
structure AssessmentQuestionRow where
  id : String
  question_type : String
  question_text : String
  question_image_url : Option String
  difficulty_level : String
  points_value : Option Nat
  time_limit_seconds : Option Nat
  explanation : Option String
deriving Repr, DecidableEq

/-- Row of assessment_question_options under select=* in the
student-assessment flow. -/
structure AssessmentQuestionOptionRow where
  id : String
  question_id : String
  option_text : String
  option_image_url : Option String
  is_correct : Bool
  order_index : Nat
deriving Repr, DecidableEq

/-- Row of assessment_templates (the fields the start checks read). -/
structure TemplateRow where
  id : String
  is_active : Bool
  is_public : Bool
  max_attempts : Option Nat
  time_limit_minutes : Nat
  randomize_questions : Bool
  randomize_options : Bool
deriving Repr, DecidableEq

/-- Row of student_assessment_responses as built by submitResponse. -/
structure ResponseRow where
  session_id : String
  question_id : String
  selected_option_id : Option String
  text_answer : Option String
  is_correct : Bool
  points_earned : Nat
  time_spent_seconds : Int
deriving Repr, DecidableEq

/-- The slice of the relational store the student assessment flow
touches.  templateQuestions holds the (template_id, question_id) links
of assessment_template_questions. -/
structure Store where
  sessions : List SessionRow
  questions : List AssessmentQuestionRow
  options : List AssessmentQuestionOptionRow
  textAnswers : List DbTextAnswerRow
  templateQuestions : List (String × String)
  responses : List ResponseRow
deriving Repr, DecidableEq

/-- SubmitResponseDto of the controller. -/
structure SubmitResponseDto where
  session_token : String
  question_id : String
  selected_option_id : Option String
  text_answer : Option String
  time_spent_seconds : Int
deriving Repr, DecidableEq

/-- The Nest exceptions the flow throws; internal covers upstream
failures and uncaught TypeErrors alike. -/
inductive ApiError
  | notFound (msg : String)
  | forbidden (msg : String)
  | badRequest (msg : String)
  | internal
deriving Repr, DecidableEq

/-- HTTP status carried by each exception. -/
def httpStatus : ApiError → Nat
  | .notFound _ => 404
  | .forbidden _ => 403
  | .badRequest _ => 400
  | .internal => 500

/-- JS value || null on an optional string field: the empty string is
falsy and becomes null. -/
def jsStrOrNull : Option String → Option String
  | none => none
  | some s => if s = "" then none else some s

/-- The session lookup of getAssessmentSession: filter by session_token
and student_id, destructure the first row. -/
def findSession (st : Store) (tok sid : String) : Option SessionRow :=
  st.sessions.find? (fun s => s.session_token == tok && s.student_id == sid)

/-- StudentAssessmentService.expireSession: PATCH status = expired on
id = eq.sessionId. -/
def expireSession (st : Store) (sessionId : String) : Store :=
  { st with
    sessions := st.sessions.map (fun s =>
      if s.id == sessionId then { s with status := .expired } else s) }

/-- StudentAssessmentService.getAssessmentSession: resolve the session
by token and owner; when its status is already expired, or its
expires_at lies strictly in the past, patch the status to expired
unless it already is, then throw Forbidden.  Returns the possibly
updated store together with the session row or the thrown error. -/
def getAssessmentSession (now : Nat) (st : Store) (tok sid : String) :
    Store × Except ApiError SessionRow :=
  match findSession st tok sid with
  | none => (st, .error (.notFound "Assessment session not found"))
  | some s =>
    if s.status == .expired || decide (s.expires_at < now) then
      ((if s.status == .expired then st else expireSession st s.id),
       .error (.forbidden "Assessment session has expired"))
    else (st, .ok s)

/-- StudentAssessmentService.validateAndScoreResponse: the mcq branch
resolves the selected option filtered by question_id and takes its
is_correct flag; the text branch is validateTextVerdict; any other
question type scores incorrect.  none models the uncaught TypeError of
the text branch. -/
def validateAndScoreResponse (st : Store) (q : AssessmentQuestionRow)
    (dto : SubmitResponseDto) : Option (Bool × Nat) :=
  if q.question_type == "mcq" || q.question_type == "image_mcq" then
    match dto.selected_option_id with
    | none => some (false, 0)
    | some oid =>
      if oid = "" then some (false, 0)
      else
        match st.options.find? (fun o => o.id == oid && o.question_id == q.id) with
        | some opt =>
          if opt.is_correct then some (true, jsPointsValue q.points_value)
          else some (false, 0)
        | none => some (false, 0)
  else if ["text", "image_text", "short_text", "fill_blank"].contains q.question_type then
    match validateTextVerdict (st.textAnswers.find? (fun t => t.question_id == q.id)) dto.text_answer with
    | none => none
    | some b => some (b, if b then jsPointsValue q.points_value else 0)
  else some (false, 0)

/-- Modelled from the spec: the backing store keeps at most one Response
row per (session, question) and answers a duplicate insert with HTTP
409 — the unique constraint lives in the database, which is not part of
src; src only maps the 409 it produces. -/
def insertResponse (rows : List ResponseRow) (r : ResponseRow) :
    Except Nat (List ResponseRow) :=
  if rows.any (fun x => x.session_id == r.session_id && x.question_id == r.question_id) then
    .error 409
  else .ok (rows ++ [r])

/-- The response payload submitResponse returns (the progress counters
and the store-generated row id are not claimed and omitted). -/
structure SubmitResult where
  is_correct : Bool
  points_earned : Nat
  explanation : Option String
deriving Repr, DecidableEq

/-- The responsePayload object submitResponse persists, with the
|| null coercions of the source. -/
def mkResponseRow (session : SessionRow) (dto : SubmitResponseDto) (scored : Bool × Nat) :
    ResponseRow :=
  { session_id := session.id
    question_id := dto.question_id
    selected_option_id := jsStrOrNull dto.selected_option_id
    text_answer := jsStrOrNull dto.text_answer
    is_correct := scored.1
    points_earned := scored.2
    time_spent_seconds := dto.time_spent_seconds }

/-- StudentAssessmentService.submitResponse: read the session (lazy
expiry included), require status in_progress, resolve the question by
id alone — no template-membership filter — score it, build the row,
insert it; a 409 from the store surfaces as the duplicate-submission
BadRequest. -/
def submitResponse (now : Nat) (st : Store) (dto : SubmitResponseDto) (studentId : String) :
    Store × Except ApiError SubmitResult :=
  match getAssessmentSession now st dto.session_token studentId with
  | (st1, .error e) => (st1, .error e)
  | (st1, .ok session) =>
    if session.status != .inProgress then
      (st1, .error (.badRequest "Cannot submit response for non-active session"))
    else
      match st1.questions.find? (fun q => q.id == dto.question_id) with
      | none => (st1, .error (.notFound "Question not found"))
      | some question =>
        match validateAndScoreResponse st1 question dto with
        | none => (st1, .error .internal)
        | some scored =>
          match insertResponse st1.responses (mkResponseRow session dto scored) with
          | .error code =>
            (st1, .error (if code == 409 then
              ApiError.badRequest "Response already submitted for this question"
              else ApiError.internal))
          | .ok rows =>
            ({ st1 with responses := rows },
             .ok { is_correct := scored.1, points_earned := scored.2,
                   explanation := question.explanation })

/-- Modelled from the spec: the calculate_session_results database
function (an RPC, not part of src) finalizes a session — it aggregates
the stored responses and sets the session status to completed.  Only
the status transition matters to the claims below and is modelled. -/
def calculateSessionResults (st : Store) (sessionId : String) : Store :=
  { st with
    sessions := st.sessions.map (fun s =>
      if s.id == sessionId then { s with status := .completed } else s) }

/-- StudentAssessmentService.finishAssessment up to its status effects:
read the session, require in_progress, delegate to
calculateSessionResults.  The re-read summary is not claimed and
replaced by the session id. -/
def finishAssessment (now : Nat) (st : Store) (tok sid : String) :
    Store × Except ApiError String :=
  match getAssessmentSession now st tok sid with
  | (st1, .error e) => (st1, .error e)
  | (st1, .ok session) =>
    if session.status != .inProgress then
      (st1, .error (.badRequest "Cannot finish non-active session"))
    else (calculateSessionResults st1 session.id, .ok session.id)

/-- StudentAssessmentService.getAssessmentTemplate: 404 when the row is
absent, 403 when the template is inactive or not public. -/
def getTemplateGate (template : Option TemplateRow) : Except ApiError TemplateRow :=
  match template with
  | none => .error (.notFound "Assessment template not found")
  | some t =>
    if !t.is_active || !t.is_public then
      .error (.forbidden "This assessment is not available")
    else .ok t

/-- StudentAssessmentController.validateStudentCanStartAssessment,
composed with the template gate it calls first.  activeSessionCount is
the number of in_progress sessions of this student for the template,
attemptCount the student total for it; JS if (template.max_attempts)
treats null and 0 as falsy. -/
def validateStudentCanStartAssessment (template : Option TemplateRow)
    (activeSessionCount attemptCount : Nat) : Option ApiError :=
  match getTemplateGate template with
  | .error e => some e
  | .ok t =>
    if !t.is_active then some (.forbidden "This assessment is not currently available")
    else if 0 < activeSessionCount then
      some (.badRequest "You already have an active session for this assessment")
    else
      match t.max_attempts with
      | none => none
      | some m =>
        if m == 0 then none
        else if m ≤ attemptCount then
          some (.forbidden "You have reached the maximum number of attempts for this assessment")
        else none

/-- The sanitized option payload produced by prepareQuestionOptions. -/
structure PreparedOption where
  id : String
  option_text : String
  option_image_url : Option String
deriving Repr, DecidableEq

/-- The per-option projection of prepareQuestionOptions: only id,
option_text and option_image_url survive. -/
def stripOption (o : AssessmentQuestionOptionRow) : PreparedOption :=
  ⟨o.id, o.option_text, o.option_image_url⟩

/-- StudentAssessmentService.prepareQuestionOptions: strip every option
to the student-safe fields, then shuffle the stripped list when
randomization is on. -/
def prepareQuestionOptions (options : List AssessmentQuestionOptionRow)
    (randomize : Bool) (rand : Nat → Nat) : List PreparedOption :=
  let prepared := options.map stripOption
  if randomize then shuffleArray prepared rand else prepared

/-- The question payload startAssessment maps each question to. -/
structure StudentQuestionView where
  id : String
  question_number : Nat
  question_type : String
  question_text : String
  question_image_url : Option String
  difficulty_level : String
  points_value : Option Nat
  time_limit_seconds : Option Nat
  options : List PreparedOption
deriving Repr, DecidableEq

/-- The questions array of the startAssessment result: the enumerated
map of the source, with an independent option-shuffle draw sequence per
question index. -/
def startQuestionsPayload
    (questions : List (AssessmentQuestionRow × List AssessmentQuestionOptionRow))
    (randomizeOptions : Bool) (rand : Nat → Nat → Nat) : List StudentQuestionView :=
  questions.enum.map (fun p =>
    { id := p.2.1.id
      question_number := p.1 + 1
      question_type := p.2.1.question_type
      question_text := p.2.1.question_text
      question_image_url := p.2.1.question_image_url
      difficulty_level := p.2.1.difficulty_level
      points_value := p.2.1.points_value
      time_limit_seconds := p.2.1.time_limit_seconds
      options := prepareQuestionOptions p.2.2 randomizeOptions (rand p.1) })

/-- The object getQuestionForSession returns: the whole question row is
spread into the payload (...question), followed by the prepared options
and the student's existing response. -/
structure QuestionForSessionView where
  question : AssessmentQuestionRow
  options : List PreparedOption
  existing_response : Option ResponseRow
deriving Repr, DecidableEq

/-- The payload construction of getQuestionForSession. -/
def getQuestionForSessionPayload (q : AssessmentQuestionRow)
    (options : List AssessmentQuestionOptionRow) (randomizeOptions : Bool)
    (rand : Nat → Nat) (existing : Option ResponseRow) : QuestionForSessionView :=
  ⟨q, prepareQuestionOptions options randomizeOptions rand, existing⟩

/-- Status of the stored session with the given id. -/
def sessionStatusIn (st : Store) (sessionId : String) : Option SessionStatus :=
  (st.sessions.find? (fun s => s.id == sessionId)).map (fun s => s.status)

/-- Whether a question is linked to a template in
assessment_template_questions. -/
def questionBelongsToTemplate (st : Store) (templateId questionId : String) : Bool :=
  st.templateQuestions.any (fun p => p.1 == templateId && p.2 == questionId)

/-- Case folding of the empty string is the empty string. -/
theorem normalizeFor_empty (b : Bool) : normalizeFor b "" = "" := by
  cases b <;> rfl

/-- C9: shuffleArray returns a permutation of its input — the same
elements with the same multiplicities (the JS operates on a spread copy,
so the input array is untouched) — and prepareQuestionOptions therefore
returns exactly the stripped canonical options, in possibly different
order when randomization is enabled. -/
theorem shuffleArray_perm :
    (∀ (α : Type) (l : List α) (rand : Nat → Nat),
      List.Perm (shuffleArray l rand) l) ∧
    (∀ (options : List AssessmentQuestionOptionRow) (randomize : Bool) (rand : Nat → Nat),
      List.Perm (prepareQuestionOptions options randomize rand) (options.map stripOption)) := by
  constructor
  · intro α l rand
    exact shuffleAux_perm rand (l.length - 1) l
  · intro options randomize rand
    unfold prepareQuestionOptions
    cases randomize with
    | true => simpa using shuffleAux_perm rand _ (options.map stripOption)
    | false => simp

/-- C8: in the standalone flow, finish scores
round(100 * correct / total) with total the length of the response list
(0 when it is empty) and passes exactly at the fixed 72 cutoff;
jsRoundPct is indeed half-up rounding of the rational 100 * c / t; and
the legacy 25-question flow (correctCount >= 18) agrees with the
72-percent reading of its own score. -/
theorem finish_score_formula :
    (∀ (qs : List FullQuestion) (responses : List RespIn),
      (finishEval qs responses).total = responses.length ∧
      (finishEval qs responses).score =
        (if (finishEval qs responses).total = 0 then 0
         else jsRoundPct (finishEval qs responses).correct (finishEval qs responses).total) ∧
      ((finishEval qs responses).passed = true ↔
        PASSING_SCORE ≤ (finishEval qs responses).score)) ∧
    (∀ c t : Nat, 0 < t →
      (jsRoundPct c t : ℚ) = ⌊100 * (c : ℚ) / (t : ℚ) + 1 / 2⌋₊) ∧
    (∀ correctCount : Nat,
      legacyPassed correctCount = true ↔ PASSING_SCORE ≤ legacyScore correctCount) := by
  refine ⟨?_, ?_, ?_⟩
  · intro qs responses
    unfold finishEval
    refine ⟨rfl, ?_, ?_⟩
    · by_cases h : responses.length = 0 <;> simp [h]
    · simp
  · intro c t ht
    have ht2 : (t : ℚ) ≠ 0 := by positivity
    have key : 100 * (c : ℚ) / (t : ℚ) + 1 / 2 = ((200 * c + t : ℕ) : ℚ) / ((2 * t : ℕ) : ℚ) := by
      push_cast
      field_simp
      ring
    rw [key, Nat.floor_div_nat]
    unfold jsRoundPct
    norm_cast
  · intro c
    unfold legacyPassed legacyScore jsRoundPct legacyTotalQuestions PASSING_SCORE
    simp only [decide_eq_true_eq]
    omega

/-- C8 witness: at 3 correct answers out of 8 the implemented rounding
agrees with half-up rounding of the rational 100 * 3 / 8 = 37.5. -/
theorem finish_score_formula_witness :
    (jsRoundPct 3 8 : ℚ) = ⌊100 * (3 : ℚ) / (8 : ℚ) + 1 / 2⌋₊ :=
  finish_score_formula.2.1 3 8 (by decide)

/-- The text spec of the C1 counterexample: an empty-string keyword. -/
def c1CexSpec : DbTextAnswerRow := ⟨"q1", "x", false, false, some [], some [""]⟩

/-- C1 counterexample: for the submission consisting of one space
(which trims to the empty string) against c1CexSpec, exact_match is
false, neither the normalized canonical answer nor any alternate occurs
in the normalized submission, the keyword list is non-empty and its one
keyword (the empty string) occurs in the normalized submission, so the
majority threshold 1 is met — yet evaluateTextAnswer scores the
submission incorrect, because a submission that trims to the empty
string is never correct.  The claimed equivalence is false as stated. -/
theorem evaluateTextAnswer_keyword_claim_cex :
    c1CexSpec.exact_match = false ∧
    jsIncludes (normSubmission c1CexSpec " ") (normCanonical c1CexSpec) = false ∧
    (∀ alt ∈ c1CexSpec.alternate_answers.getD [],
      jsIncludes (normSubmission c1CexSpec " ") (normalizeFor c1CexSpec.case_sensitive alt) = false) ∧
    c1CexSpec.keywords.getD [] ≠ [] ∧
    ceilHalf (c1CexSpec.keywords.getD []).length ≤ keywordMatchCount c1CexSpec " " ∧
    evaluateTextAnswer (some " ") (some c1CexSpec) = false := by
  exact ⟨rfl, by decide, by decide, by decide, by decide, by decide⟩

/-- C1 amended: for a text question with exact_match false and a
submission that trims to a non-empty string, if the normalized
submission contains neither the normalized canonical answer nor any
normalized alternate answer as a substring, the evaluator marks it
correct precisely when the keyword list is non-empty and at least
ceil(keywords.length / 2) keywords occur as substrings of the
normalized submission. -/
theorem evaluateTextAnswer_keyword_majority (sp : DbTextAnswerRow) (s : String)
    (hs : jsTrim s ≠ "")
    (hem : sp.exact_match = false)
    (hcanon : jsIncludes (normSubmission sp s) (normCanonical sp) = false)
    (halt : ∀ alt ∈ sp.alternate_answers.getD [],
      jsIncludes (normSubmission sp s) (normalizeFor sp.case_sensitive alt) = false) :
    evaluateTextAnswer (some s) (some sp) = true ↔
      (sp.keywords.getD [] ≠ [] ∧
        ceilHalf (sp.keywords.getD []).length ≤ keywordMatchCount sp s) := by
  have hc : jsTrim sp.correct_answer ≠ "" := by
    intro h0
    rw [normCanonical, h0, normalizeFor_empty, jsIncludes_empty] at hcanon
    exact Bool.true_eq_false.mp hcanon
  have haltb : (sp.alternate_answers.getD []).any
      (fun alt => jsIncludes (normSubmission sp s) (normalizeFor sp.case_sensitive alt)) = false := by
    rw [List.any_eq_false]
    intro alt hmem
    simpa using halt alt hmem
  unfold evaluateTextAnswer
  simp only [Option.getD_some]
  rw [if_neg hs, if_neg hc, hem]
  simp only [Bool.false_eq_true, if_false]
  rw [if_neg (by simpa [normSubmission, normCanonical] using hcanon)]
  rw [if_neg (by simpa [normSubmission] using haltb)]
  rcases hk : sp.keywords.getD [] with _ | ⟨k, ks⟩
  · simp
  · simp only [List.length_cons, beq_iff_eq, Nat.succ_ne_zero, if_false]
    rw [keywordMatchCount, hk]
    simp [normSubmission, decide_eq_true_eq]

/-- The text spec instantiating the keyword example of the claim. -/
def c1WitnessSpec : DbTextAnswerRow :=
  ⟨"q1w", "zzz", false, false, some [], some ["head", "first", "rows"]⟩

/-- C1 witness: against the keyword list [head, first, rows] (threshold
2) a submission containing head and rows is correct and one containing
only head is not. -/
theorem evaluateTextAnswer_keyword_majority_witness :
    evaluateTextAnswer (some "shows head and the rows") (some c1WitnessSpec) = true ∧
    evaluateTextAnswer (some "only head here") (some c1WitnessSpec) = false := by
  constructor
  · exact (evaluateTextAnswer_keyword_majority c1WitnessSpec "shows head and the rows"
      (by decide) rfl (by decide) (by decide)).mpr (by decide)
  · have h := evaluateTextAnswer_keyword_majority c1WitnessSpec "only head here"
      (by decide) rfl (by decide) (by decide)
    exact Bool.eq_false_iff.mpr (fun hb => absurd (h.mp hb) (by decide))

/-- The text spec of the C7 counterexample: exact_match with an
empty canonical answer. -/
def c7CexSpec : DbTextAnswerRow := ⟨"q7", "", false, true, some [], some []⟩

/-- C7 counterexample: with exact_match true, canonical answer the
empty string and submission the empty string, the trimmed submission
equals the canonical answer under either case rule, yet the evaluator
scores it incorrect — correctness in the exact_match branch is not
decided solely by the equality. -/
theorem evaluateTextAnswer_exact_claim_cex :
    c7CexSpec.exact_match = true ∧
    jsTrim "" = jsTrim c7CexSpec.correct_answer ∧
    evaluateTextAnswer (some "") (some c7CexSpec) = false := by
  exact ⟨rfl, rfl, by decide⟩

/-- C7 amended: in the exact_match branch, whenever both the submission
and the canonical answer trim to non-empty strings, correctness is
exactly equality of the trimmed strings — case-sensitive when
case_sensitive is set, case-insensitive otherwise; and the verdict
never depends on the alternate answers or keywords (a submission or
canonical answer trimming to the empty string is simply never
correct). -/
theorem evaluateTextAnswer_exact_match (sp : DbTextAnswerRow) (s : String)
    (hem : sp.exact_match = true) :
    (jsTrim s ≠ "" → jsTrim sp.correct_answer ≠ "" →
      (evaluateTextAnswer (some s) (some sp) = true ↔
        (if sp.case_sensitive then jsTrim s = jsTrim sp.correct_answer
         else jsToLower (jsTrim s) = jsToLower (jsTrim sp.correct_answer)))) ∧
    (∀ alts kws : Option (List String),
      evaluateTextAnswer (some s)
        (some { sp with alternate_answers := alts, keywords := kws }) =
      evaluateTextAnswer (some s) (some sp)) := by
  constructor
  · intro hs hc
    unfold evaluateTextAnswer
    simp only [Option.getD_some]
    rw [if_neg hs, if_neg hc, hem]
    simp only [if_true]
    cases hcs : sp.case_sensitive <;> simp
  · intro alts kws
    unfold evaluateTextAnswer
    simp only [Option.getD_some]
    by_cases hs : jsTrim s = ""
    · rw [if_pos hs, if_pos hs]
    · rw [if_neg hs, if_neg hs]
      by_cases hc : jsTrim sp.correct_answer = ""
      · rw [if_pos hc, if_pos hc]
      · rw [if_neg hc, if_neg hc, hem]
        simp

/-- The text spec of the C7 witness: case-insensitive exact match with
decoy alternates and keywords. -/
def c7WitnessSpec : DbTextAnswerRow := ⟨"q7w", "def", false, true, some ["ghi"], some ["k"]⟩

/-- C7 witness: DEF matches the canonical def case-insensitively under
exact_match. -/
theorem evaluateTextAnswer_exact_match_witness :
    evaluateTextAnswer (some "DEF") (some c7WitnessSpec) = true :=
  ((evaluateTextAnswer_exact_match c7WitnessSpec "DEF" rfl).1
    (by decide) (by decide)).mpr (by decide)

/-- The text spec of the C10 counterexample: a canonical answer that
trims to the empty string. -/
def c10CexSpec : DbTextAnswerRow := ⟨"q10", "  ", false, false, some [], some []⟩

/-- C10 counterexample: on a spec whose canonical answer trims to the
empty string the two implementations disagree about the submission abc:
evaluateTextAnswer guards against an empty canonical answer and scores
incorrect, while the validateAndScoreResponse text branch reaches the
substring test, every string includes the empty string, and scores
correct. -/
theorem text_evaluators_disagree_cex :
    evaluateTextAnswer (some "abc") (some c10CexSpec) = false ∧
    validateTextVerdict (some c10CexSpec) (some "abc") = some true := by
  exact ⟨by decide, by decide⟩

/-- C10 amended: the two text evaluators agree — and the
validateAndScoreResponse branch does not crash — whenever the
submission trims to a non-empty string, the canonical answer trims to a
non-empty string, and the alternate_answers and keywords columns are
present. -/
theorem text_evaluators_agree (sp : DbTextAnswerRow) (s : String)
    (alts kws : List String)
    (halts : sp.alternate_answers = some alts) (hkws : sp.keywords = some kws)
    (hs : jsTrim s ≠ "") (hc : jsTrim sp.correct_answer ≠ "") :
    validateTextVerdict (some sp) (some s) = some (evaluateTextAnswer (some s) (some sp)) := by
  have hs0 : s ≠ "" := by
    intro h0
    exact hs (by rw [h0]; rfl)
  have lhs_eq : validateTextVerdict (some sp) (some s) = validateAndScoreTextCore sp s := by
    simp [validateTextVerdict, hs0]
  rw [lhs_eq]
  unfold validateAndScoreTextCore evaluateTextAnswer
  simp only [Option.getD_some]
  rw [if_neg hs, if_neg hc]
  by_cases hem : sp.exact_match
  · rw [if_pos hem, if_pos hem]
  · rw [if_neg hem, if_neg hem]
    by_cases hinc : jsIncludes (normalizeFor sp.case_sensitive (jsTrim s))
        (normalizeFor sp.case_sensitive (jsTrim sp.correct_answer)) = true
    · rw [if_pos hinc, if_pos hinc]
    · rw [if_neg hinc, if_neg hinc, halts, hkws]
      simp only [Option.getD_some]
      by_cases halt : alts.any (fun alt =>
          jsIncludes (normalizeFor sp.case_sensitive (jsTrim s))
            (normalizeFor sp.case_sensitive alt)) = true
      · rw [if_pos halt, if_pos halt]
      · rw [if_neg halt, if_neg halt]
        rcases kws with _ | ⟨k, ks⟩
        · simp
        · simp

/-- A fresh, unexpired in_progress session is read back unchanged. -/
theorem getSession_ok (now : Nat) (st : Store) (tok sid : String) (s : SessionRow)
    (hf : findSession st tok sid = some s)
    (h1 : s.status = SessionStatus.inProgress)
    (h2 : ¬ s.expires_at < now) :
    getAssessmentSession now st tok sid = (st, Except.ok s) := by
  unfold getAssessmentSession
  rw [hf]
  simp [h1, h2]

/-- Inversion of a successful session read: the store came back
untouched and the session was found in_progress or completed, with
expires_at not in the past. -/
theorem getSession_ok_inv (now : Nat) (st st0 : Store) (tok sid : String) (s : SessionRow)
    (h : getAssessmentSession now st tok sid = (st0, Except.ok s)) :
    st0 = st ∧ findSession st tok sid = some s ∧
      s.status ≠ SessionStatus.expired ∧ ¬ s.expires_at < now := by
  unfold getAssessmentSession at h
  cases hf : findSession st tok sid with
  | none =>
    rw [hf] at h
    simp at h
  | some s0 =>
    rw [hf] at h
    simp only [] at h
    by_cases hcond : (s0.status == SessionStatus.expired || decide (s0.expires_at < now)) = true
    · rw [if_pos hcond] at h
      simp at h
    · rw [if_neg hcond] at h
      simp only [Prod.mk.injEq, Except.ok.injEq] at h
      obtain ⟨hst, hs⟩ := h
      subst hst
      subst hs
      simp only [Bool.or_eq_true, not_or, beq_iff_eq, decide_eq_true_eq] at hcond
      push_neg at hcond
      exact ⟨rfl, rfl, hcond.1, Nat.not_lt.mpr hcond.2⟩

/-- expireSession only rewrites the status field, so a session lookup by
token and owner finds the same row, with the status patched. -/
theorem findSession_expireSession (st : Store) (i tok sid : String) :
    findSession (expireSession st i) tok sid =
      (findSession st tok sid).map
        (fun s => if s.id == i then { s with status := SessionStatus.expired } else s) := by
  unfold findSession expireSession
  rw [List.find?_map]
  have hp : ((fun s : SessionRow => s.session_token == tok && s.student_id == sid) ∘
      (fun s => if s.id == i then { s with status := SessionStatus.expired } else s)) =
      (fun s : SessionRow => s.session_token == tok && s.student_id == sid) := by
    funext s
    by_cases h : s.id = i <;> simp [h]
  rw [hp]

/-- A session read never touches the stored responses: the store it
returns is the input store or its expiry patch, which rewrites only
session statuses. -/
theorem getSession_preserves_responses (now : Nat) (st : Store) (tok sid : String) :
    (getAssessmentSession now st tok sid).fst.responses = st.responses := by
  unfold getAssessmentSession
  split
  · rfl
  · split
    · split
      · rfl
      · rfl
    · rfl

/-- C2: at most one Response row per (session, question).  Part 1: once
a row for the pair exists, ANY later submitResponse for the same
question on the same session — whatever answer it carries and whenever
it arrives, provided it reaches the insert — is rejected with the
duplicate-submission conflict surfacing the store's 409, and the store
is returned unchanged.  Part 2: no submitResponse call ever rewrites or
removes an existing row — every call leaves the responses untouched or
appends one row for a pair that had none, so the first submission is
never overwritten.  Part 3: a successful submission records a row for
its (session, question) pair, establishing the premise of part 1 for
every subsequent call. -/
theorem submitResponse_conflict_on_duplicate :
    (∀ (now2 : Nat) (st : Store) (dto2 : SubmitResponseDto) (sid : String)
      (s : SessionRow) (q : AssessmentQuestionRow) (scored2 : Bool × Nat),
      findSession st dto2.session_token sid = some s →
      s.status = SessionStatus.inProgress →
      ¬ s.expires_at < now2 →
      st.questions.find? (fun x => x.id == dto2.question_id) = some q →
      validateAndScoreResponse st q dto2 = some scored2 →
      st.responses.any (fun x => x.session_id == s.id && x.question_id == dto2.question_id) = true →
      submitResponse now2 st dto2 sid =
        (st, Except.error (ApiError.badRequest "Response already submitted for this question"))) ∧
    (∀ (now : Nat) (st : Store) (dto : SubmitResponseDto) (sid : String),
      (submitResponse now st dto sid).fst.responses = st.responses ∨
      ∃ row,
        (submitResponse now st dto sid).fst.responses = st.responses ++ [row] ∧
        st.responses.any (fun x => x.session_id == row.session_id &&
          x.question_id == row.question_id) = false) ∧
    (∀ (now : Nat) (st st1 : Store) (dto : SubmitResponseDto) (sid : String) (r : SubmitResult),
      submitResponse now st dto sid = (st1, Except.ok r) →
      ∃ s, findSession st dto.session_token sid = some s ∧
        st1.responses.any (fun x => x.session_id == s.id &&
          x.question_id == dto.question_id) = true) := by
  refine ⟨?_, ?_, ?_⟩
  · intro now2 st dto2 sid s q scored2 hf h1 h2 hq hv hdup
    have e1 := getSession_ok now2 st dto2.session_token sid s hf h1 h2
    unfold submitResponse
    simp only [e1]
    rw [if_neg (by simp [h1])]
    simp only [hq, hv]
    have hdup2 : st.responses.any
        (fun x => x.session_id == (mkResponseRow s dto2 scored2).session_id &&
          x.question_id == (mkResponseRow s dto2 scored2).question_id) = true := hdup
    have hins : insertResponse st.responses (mkResponseRow s dto2 scored2) =
        Except.error 409 := by
      unfold insertResponse
      rw [if_pos hdup2]
    simp only [hins]
    simp
  · intro now st dto sid
    unfold submitResponse
    rcases hg : getAssessmentSession now st dto.session_token sid with ⟨stA, res⟩
    have hresp : stA.responses = st.responses := by
      have hpres := getSession_preserves_responses now st dto.session_token sid
      rw [hg] at hpres
      exact hpres
    cases res with
    | error e =>
      simp only [hg]
      left
      exact hresp
    | ok session =>
      simp only [hg]
      by_cases hstat : (session.status != SessionStatus.inProgress) = true
      · rw [if_pos hstat]
        left
        exact hresp
      · rw [if_neg hstat]
        cases hq : stA.questions.find? (fun x => x.id == dto.question_id) with
        | none =>
          simp only [hq]
          left
          exact hresp
        | some question =>
          simp only [hq]
          cases hv : validateAndScoreResponse stA question dto with
          | none =>
            simp only [hv]
            left
            exact hresp
          | some scored =>
            simp only [hv]
            cases hins : insertResponse stA.responses (mkResponseRow session dto scored) with
            | error code =>
              simp only [hins]
              left
              exact hresp
            | ok rows =>
              simp only [hins]
              unfold insertResponse at hins
              split at hins
              · simp at hins
              · rename_i hdup
                simp only [Except.ok.injEq] at hins
                subst hins
                right
                refine ⟨mkResponseRow session dto scored, ?_, ?_⟩
                · show stA.responses ++ [mkResponseRow session dto scored] =
                    st.responses ++ [mkResponseRow session dto scored]
                  rw [hresp]
                · rw [hresp] at hdup
                  exact Bool.eq_false_iff.mpr hdup
  · intro now st st1 dto sid r h
    unfold submitResponse at h
    split at h
    · simp at h
    · rename_i stA session heq
      split at h
      · simp at h
      · rename_i hstat
        split at h
        · simp at h
        · rename_i question hq
          split at h
          · simp at h
          · rename_i scored hv
            split at h
            · simp at h
            · rename_i rows hins
              simp only [Prod.mk.injEq, Except.ok.injEq] at h
              obtain ⟨hst1, hr⟩ := h
              obtain ⟨hstA, hfind, hnexp, hnlt⟩ :=
                getSession_ok_inv now st stA dto.session_token sid session heq
              subst hstA
              unfold insertResponse at hins
              split at hins
              · simp at hins
              · simp only [Except.ok.injEq] at hins
                subst hins
                subst hst1
                refine ⟨session, hfind, ?_⟩
                simp [mkResponseRow]

/-- Session fixture for the C2 witness. -/
def c2Session : SessionRow := ⟨"s1", "tok1", "stu1", "tmpl1", 1, .inProgress, 100⟩

/-- Question fixture for the C2 witness. -/
def c2Question : AssessmentQuestionRow :=
  ⟨"q1", "mcq", "Pick one", none, "easy", some 2, none, some "because"⟩

/-- Option fixture for the C2 witness. -/
def c2Option : AssessmentQuestionOptionRow := ⟨"o1", "q1", "A", none, true, 0⟩

/-- Store fixture for the C2 witness. -/
def c2Store : Store := ⟨[c2Session], [c2Question], [c2Option], [], [("tmpl1", "q1")], []⟩

/-- First submission of the C2 witness: option o1, at time 50. -/
def c2Dto : SubmitResponseDto := ⟨"tok1", "q1", some "o1", none, 5⟩

/-- The store after the first successful submission. -/
def c2Store1 : Store :=
  { c2Store with responses := [mkResponseRow c2Session c2Dto (true, 2)] }

/-- Second submission of the C2 witness: the same session and question
but a DIFFERENT answer (option o2), arriving later (time 60). -/
def c2Dto2 : SubmitResponseDto := ⟨"tok1", "q1", some "o2", none, 9⟩

/-- C2 witness: after the first submission persisted its row, a later
submission for the same question carrying a different answer is
rejected with the conflict and the store — hence the first row — is
unchanged. -/
theorem submitResponse_conflict_witness :
    submitResponse 60 c2Store1 c2Dto2 "stu1" =
      (c2Store1, Except.error (ApiError.badRequest "Response already submitted for this question")) :=
  submitResponse_conflict_on_duplicate.1 60 c2Store1 c2Dto2 "stu1" c2Session c2Question
    (false, 0) rfl rfl (by decide) rfl rfl (by decide)

/-- C3 amended: any read of an in_progress session whose expires_at has
passed patches the stored status to expired and rejects with the
Forbidden expired signal; the patch happens exactly once — a later read
of the now-expired session rejects without touching the store again —
and a finish or a submit on it is likewise rejected with no state
change, so no operation leaves the expired state.  (A completed session
whose expires_at has passed is, however, also re-marked expired by a
read: see the counterexample.) -/
theorem session_lazy_expiry (now now2 : Nat) (st : Store) (tok sid : String)
    (s : SessionRow) (dto : SubmitResponseDto)
    (hf : findSession st tok sid = some s)
    (h1 : s.status = SessionStatus.inProgress)
    (h2 : s.expires_at < now)
    (hdto : dto.session_token = tok) :
    getAssessmentSession now st tok sid =
      (expireSession st s.id, Except.error (ApiError.forbidden "Assessment session has expired")) ∧
    sessionStatusIn (expireSession st s.id) s.id = some SessionStatus.expired ∧
    getAssessmentSession now2 (expireSession st s.id) tok sid =
      (expireSession st s.id, Except.error (ApiError.forbidden "Assessment session has expired")) ∧
    finishAssessment now2 (expireSession st s.id) tok sid =
      (expireSession st s.id, Except.error (ApiError.forbidden "Assessment session has expired")) ∧
    submitResponse now2 (expireSession st s.id) dto sid =
      (expireSession st s.id, Except.error (ApiError.forbidden "Assessment session has expired")) := by
  have hread1 : getAssessmentSession now st tok sid =
      (expireSession st s.id, Except.error (ApiError.forbidden "Assessment session has expired")) := by
    unfold getAssessmentSession
    rw [hf]
    simp [h1, h2]
  have hf2 : findSession (expireSession st s.id) tok sid =
      some { s with status := SessionStatus.expired } := by
    rw [findSession_expireSession, hf]
    simp
  have hread2 : getAssessmentSession now2 (expireSession st s.id) tok sid =
      (expireSession st s.id, Except.error (ApiError.forbidden "Assessment session has expired")) := by
    unfold getAssessmentSession
    rw [hf2]
    simp
  refine ⟨hread1, ?_, hread2, ?_, ?_⟩
  · unfold sessionStatusIn expireSession
    rw [List.find?_map]
    have hp : ((fun t : SessionRow => t.id == s.id) ∘
        (fun t => if t.id == s.id then { t with status := SessionStatus.expired } else t)) =
        (fun t : SessionRow => t.id == s.id) := by
      funext t
      by_cases h : t.id = s.id <;> simp [h]
    rw [hp]
    have hmem : s ∈ st.sessions := List.mem_of_find?_eq_some hf
    obtain ⟨x, hx⟩ : ∃ x, st.sessions.find? (fun t => t.id == s.id) = some x := by
      rw [← Option.isSome_iff_exists, List.find?_isSome]
      exact ⟨s, hmem, by simp⟩
    have hpx : x.id = s.id := by simpa using List.find?_some hx
    rw [hx]
    simp [hpx]
  · unfold finishAssessment
    rw [hread2]
  · unfold submitResponse
    rw [hdto, hread2]

/-- Session fixture of the C3 counterexample: completed, with
expires_at in the past. -/
def c3CexSession : SessionRow := ⟨"s1", "tok1", "stu1", "tmpl1", 1, .completed, 10⟩

/-- Store fixture of the C3 counterexample. -/
def c3CexStore : Store := ⟨[c3CexSession], [], [], [], [], []⟩

/-- C3 counterexample: a session in the completed state whose
expires_at has passed is transitioned OUT of completed — a read through
getAssessmentSession patches its stored status to expired (and rejects
the read) — refuting that no operation ever transitions a session out
of the completed state. -/
theorem completed_session_leaves_completed_cex :
    sessionStatusIn c3CexStore "s1" = some SessionStatus.completed ∧
    (getAssessmentSession 20 c3CexStore "tok1" "stu1").snd =
      Except.error (ApiError.forbidden "Assessment session has expired") ∧
    sessionStatusIn (getAssessmentSession 20 c3CexStore "tok1" "stu1").fst "s1" =
      some SessionStatus.expired := by
  exact ⟨rfl, rfl, rfl⟩

/-- Session fixture of the C3 witness. -/
def c3WSession : SessionRow := ⟨"s2", "tok2", "stu2", "tmpl1", 1, .inProgress, 10⟩

/-- Store fixture of the C3 witness. -/
def c3WStore : Store := ⟨[c3WSession], [], [], [], [], []⟩

/-- Dto fixture of the C3 witness. -/
def c3WDto : SubmitResponseDto := ⟨"tok2", "q1", none, none, 5⟩

/-- C3 witness: the concrete in_progress session past its expiry is
patched to expired and the read, a later read, the finish and the
submit are all rejected with the expired signal. -/
theorem session_lazy_expiry_witness :
    getAssessmentSession 20 c3WStore "tok2" "stu2" =
      (expireSession c3WStore "s2", Except.error (ApiError.forbidden "Assessment session has expired")) ∧
    finishAssessment 99 (expireSession c3WStore "s2") "tok2" "stu2" =
      (expireSession c3WStore "s2", Except.error (ApiError.forbidden "Assessment session has expired")) := by
  have h := session_lazy_expiry 20 99 c3WStore "tok2" "stu2" c3WSession c3WDto rfl rfl
    (by decide) rfl
  exact ⟨h.1, h.2.2.2.1⟩

/-- Template fixture of the C4 counterexample: active, public, two
attempts allowed. -/
def c4CexTemplate : TemplateRow := ⟨"tmpl1", true, true, some 2, 30, false, false⟩

/-- C4 counterexample: with the attempt cap reached (2 recorded
attempts against max_attempts 2) and no active session, the start
validation rejects with ForbiddenException — HTTP 403 — not with the
claimed HTTP 400. -/
theorem start_cap_status_cex :
    validateStudentCanStartAssessment (some c4CexTemplate) 0 2 =
      some (ApiError.forbidden "You have reached the maximum number of attempts for this assessment") ∧
    (validateStudentCanStartAssessment (some c4CexTemplate) 0 2).map httpStatus = some 403 := by
  exact ⟨rfl, rfl⟩

/-- C4 amended: starting fails 404 when the template is absent; 403
(from the template gate) when it is inactive or not public; otherwise
400 when an in_progress session exists; otherwise 403 — not 400 — when
max_attempts is a non-zero value the recorded attempt count has
reached; otherwise starting is allowed. -/
theorem start_validation_outcomes (t : TemplateRow) (active attempts : Nat) :
    (validateStudentCanStartAssessment none active attempts =
      some (ApiError.notFound "Assessment template not found")) ∧
    (t.is_active = false ∨ t.is_public = false →
      validateStudentCanStartAssessment (some t) active attempts =
        some (ApiError.forbidden "This assessment is not available")) ∧
    (t.is_active = true → t.is_public = true →
      validateStudentCanStartAssessment (some t) active attempts =
        (if 0 < active then
          some (ApiError.badRequest "You already have an active session for this assessment")
        else
          match t.max_attempts with
          | none => none
          | some m =>
            if m ≠ 0 ∧ m ≤ attempts then
              some (ApiError.forbidden "You have reached the maximum number of attempts for this assessment")
            else none)) := by
  refine ⟨rfl, ?_, ?_⟩
  · intro h
    unfold validateStudentCanStartAssessment getTemplateGate
    rcases h with h | h <;> simp [h]
  · intro ha hp
    unfold validateStudentCanStartAssessment getTemplateGate
    simp only [ha, hp]
    simp only [Bool.not_true, Bool.or_self, Bool.false_eq_true, if_false]
    rw [ha]
    simp only [Bool.not_true, Bool.false_eq_true, if_false]
    by_cases hact : 0 < active
    · simp [hact]
    · rw [if_neg hact, if_neg hact]
      cases hm : t.max_attempts with
      | none => rfl
      | some m =>
        by_cases hm0 : m = 0
        · simp [hm0]
        · by_cases hle : m ≤ attempts
          · simp [hm0, hle]
          · simp [hm0, hle]

/-- Template fixture of the C4 witness. -/
def c4WTemplate : TemplateRow := ⟨"tmpl2", true, true, some 2, 30, false, false⟩

/-- C4 witness: an existing in_progress session yields the 400
active-session rejection on the concrete template. -/
theorem start_validation_outcomes_witness :
    validateStudentCanStartAssessment (some c4WTemplate) 1 0 =
      some (ApiError.badRequest "You already have an active session for this assessment") := by
  have h := (start_validation_outcomes c4WTemplate 1 0).2.2 rfl rfl
  simpa using h

/-- Session fixture of the C5 counterexample. -/
def c5Session : SessionRow := ⟨"s1", "tok1", "stu1", "tmpl1", 1, .inProgress, 100⟩

/-- Question fixture of the C5 counterexample: it exists in the store
but is linked to a different template. -/
def c5Question : AssessmentQuestionRow := ⟨"q2", "mcq", "Other", none, "easy", some 1, none, none⟩

/-- Store fixture of the C5 counterexample: q2 belongs only to
tmplOther, not to the session's tmpl1. -/
def c5Store : Store := ⟨[c5Session], [c5Question], [], [], [("tmplOther", "q2")], []⟩

/-- Dto fixture of the C5 counterexample. -/
def c5Dto : SubmitResponseDto := ⟨"tok1", "q2", some "oX", none, 3⟩

/-- C5 counterexample: the submitted question does not belong to the
session's template, yet submitResponse accepts the submission and
persists a Response row — the claimed membership rejection does not
exist in the code. -/
theorem submitResponse_foreign_question_cex :
    questionBelongsToTemplate c5Store c5Session.template_id "q2" = false ∧
    (submitResponse 50 c5Store c5Dto "stu1").snd = Except.ok ⟨false, 0, none⟩ ∧
    (submitResponse 50 c5Store c5Dto "stu1").fst.responses =
      [mkResponseRow c5Session c5Dto (false, 0)] := by
  exact ⟨rfl, rfl, rfl⟩

/-- C5 amended: submitResponse checks only that the question id
resolves to some stored question — template membership is never
consulted.  When the id resolves to no question the submission is
rejected 404 with no row written; when it resolves, the submission
proceeds and (absent a duplicate) persists a row, whether or not the
question is linked to the session's template. -/
theorem submitResponse_membership_not_checked (now : Nat) (st : Store)
    (dto : SubmitResponseDto) (sid : String) (s : SessionRow)
    (hf : findSession st dto.session_token sid = some s)
    (h1 : s.status = SessionStatus.inProgress)
    (h2 : ¬ s.expires_at < now) :
    (st.questions.find? (fun q => q.id == dto.question_id) = none →
      submitResponse now st dto sid = (st, Except.error (ApiError.notFound "Question not found"))) ∧
    (∀ question scored,
      st.questions.find? (fun q => q.id == dto.question_id) = some question →
      validateAndScoreResponse st question dto = some scored →
      st.responses.any (fun x => x.session_id == s.id && x.question_id == dto.question_id) = false →
      submitResponse now st dto sid =
        ({ st with responses := st.responses ++ [mkResponseRow s dto scored] },
         Except.ok ⟨scored.1, scored.2, question.explanation⟩)) := by
  have e1 := getSession_ok now st dto.session_token sid s hf h1 h2
  constructor
  · intro hq
    unfold submitResponse
    simp only [e1]
    rw [if_neg (by simp [h1])]
    simp only [hq]
  · intro question scored hq hv hdup
    unfold submitResponse
    simp only [e1]
    rw [if_neg (by simp [h1])]
    simp only [hq, hv]
    have hdup2 : st.responses.any
        (fun x => x.session_id == (mkResponseRow s dto scored).session_id &&
          x.question_id == (mkResponseRow s dto scored).question_id) = false := hdup
    have hins : insertResponse st.responses (mkResponseRow s dto scored) =
        Except.ok (st.responses ++ [mkResponseRow s dto scored]) := by
      unfold insertResponse
      rw [if_neg (by simp [hdup2])]
    simp only [hins]

/-- Session fixture of the C5 witness. -/
def c5WSession : SessionRow := ⟨"s9", "tok9", "stu9", "tmpl9", 1, .inProgress, 100⟩

/-- Question fixture of the C5 witness: linked to no template at all. -/
def c5WQuestion : AssessmentQuestionRow := ⟨"q9", "mcq", "X", none, "easy", some 1, none, none⟩

/-- Store fixture of the C5 witness. -/
def c5WStore : Store := ⟨[c5WSession], [c5WQuestion], [], [], [], []⟩

/-- Dto fixture of the C5 witness. -/
def c5WDto : SubmitResponseDto := ⟨"tok9", "q9", some "o9", none, 1⟩

/-- C5 witness: the concrete submission for a question linked to no
template is accepted and persisted. -/
theorem submitResponse_membership_not_checked_witness :
    submitResponse 10 c5WStore c5WDto "stu9" =
      ({ c5WStore with responses := c5WStore.responses ++ [mkResponseRow c5WSession c5WDto (false, 0)] },
       Except.ok ⟨false, 0, none⟩) :=
  (submitResponse_membership_not_checked 10 c5WStore c5WDto "stu9" c5WSession rfl rfl
    (by decide)).2 c5WQuestion (false, 0) rfl rfl rfl

/-- Stripping ignores any rewrite of the is_correct flags. -/
theorem prepare_ignores_is_correct (options : List AssessmentQuestionOptionRow)
    (randomize : Bool) (rand : Nat → Nat) (f : AssessmentQuestionOptionRow → Bool) :
    prepareQuestionOptions (options.map (fun o => { o with is_correct := f o })) randomize rand =
      prepareQuestionOptions options randomize rand := by
  unfold prepareQuestionOptions
  rw [List.map_map]
  have hcomp : (stripOption ∘ fun o => { o with is_correct := f o }) = stripOption :=
    funext (fun o => rfl)
  rw [hcomp]

/-- Every prepared option is the stripped image of a stored option. -/
theorem prepare_mem_strip (options : List AssessmentQuestionOptionRow)
    (randomize : Bool) (rand : Nat → Nat) (p : PreparedOption)
    (hp : p ∈ prepareQuestionOptions options randomize rand) :
    ∃ o ∈ options, p = stripOption o := by
  unfold prepareQuestionOptions at hp
  have hmem : p ∈ options.map stripOption := by
    cases randomize with
    | true =>
      simp only [if_true] at hp
      exact ((shuffleAux_perm rand _ (options.map stripOption)).mem_iff).mp hp
    | false => simpa using hp
  obtain ⟨o, ho, hpo⟩ := List.mem_map.mp hmem
  exact ⟨o, ho, hpo.symm⟩

/-- Question fixture of the C6 counterexample: it carries a non-null
explanation column. -/
def c6Question : AssessmentQuestionRow :=
  ⟨"q6", "mcq", "Which?", none, "easy", some 1, none, some "secret"⟩

/-- C6 counterexample: the payload getQuestionForSession returns spreads
the whole question row, so the question's explanation — a
correctness-revealing field — appears in the student-facing payload,
and the payload is not invariant under changes to it. -/
theorem question_payload_leaks_explanation_cex :
    (getQuestionForSessionPayload c6Question [] false (fun _ => 0) none).question.explanation =
      some "secret" ∧
    getQuestionForSessionPayload { c6Question with explanation := none } [] false (fun _ => 0) none ≠
      getQuestionForSessionPayload c6Question [] false (fun _ => 0) none := by
  exact ⟨rfl, by decide⟩

/-- C6 amended: options are always sanitized — each prepared option
carries only id, option_text and option_image_url, every prepared
option is the stripped image of a stored one, and the option payload is
invariant under arbitrary rewrites of the is_correct flags (with the
shuffle draws fixed); the startAssessment question payload is likewise
invariant under rewrites of the questions' explanation fields and the
options' is_correct flags.  The getQuestionForSession payload keeps
only this option-level sanitization: its question part spreads the full
row, explanation included (see the counterexample). -/
theorem student_payload_sanitization :
    (∀ (options : List AssessmentQuestionOptionRow) (randomize : Bool) (rand : Nat → Nat)
      (f : AssessmentQuestionOptionRow → Bool),
      prepareQuestionOptions (options.map (fun o => { o with is_correct := f o })) randomize rand =
        prepareQuestionOptions options randomize rand) ∧
    (∀ (options : List AssessmentQuestionOptionRow) (randomize : Bool) (rand : Nat → Nat)
      (p : PreparedOption), p ∈ prepareQuestionOptions options randomize rand →
      ∃ o ∈ options, p = stripOption o) ∧
    (∀ (questions : List (AssessmentQuestionRow × List AssessmentQuestionOptionRow))
      (randomizeOptions : Bool) (rand : Nat → Nat → Nat)
      (g : AssessmentQuestionRow → Option String)
      (f : AssessmentQuestionOptionRow → Bool),
      startQuestionsPayload
        (questions.map (fun qp => ({ qp.1 with explanation := g qp.1 },
          qp.2.map (fun o => { o with is_correct := f o })))) randomizeOptions rand =
        startQuestionsPayload questions randomizeOptions rand) ∧
    (∀ (q : AssessmentQuestionRow) (options : List AssessmentQuestionOptionRow)
      (randomizeOptions : Bool) (rand : Nat → Nat) (existing : Option ResponseRow)
      (f : AssessmentQuestionOptionRow → Bool),
      (getQuestionForSessionPayload q (options.map (fun o => { o with is_correct := f o }))
        randomizeOptions rand existing).options =
      (getQuestionForSessionPayload q options randomizeOptions rand existing).options) := by
  refine ⟨prepare_ignores_is_correct, prepare_mem_strip, ?_, ?_⟩
  · intro questions randomizeOptions rand g f
    unfold startQuestionsPayload
    rw [List.enum_map, List.map_map]
    have hcomp : ∀ p : Nat × (AssessmentQuestionRow × List AssessmentQuestionOptionRow),
        ((fun p : Nat × (AssessmentQuestionRow × List AssessmentQuestionOptionRow) =>
          ({ id := p.2.1.id, question_number := p.1 + 1, question_type := p.2.1.question_type,
             question_text := p.2.1.question_text, question_image_url := p.2.1.question_image_url,
             difficulty_level := p.2.1.difficulty_level, points_value := p.2.1.points_value,
             time_limit_seconds := p.2.1.time_limit_seconds,
             options := prepareQuestionOptions p.2.2 randomizeOptions (rand p.1) } : StudentQuestionView)) ∘
          Prod.map id (fun qp => ({ qp.1 with explanation := g qp.1 },
            qp.2.map (fun o => { o with is_correct := f o })))) p =
        ({ id := p.2.1.id, question_number := p.1 + 1, question_type := p.2.1.question_type,
           question_text := p.2.1.question_text, question_image_url := p.2.1.question_image_url,
           difficulty_level := p.2.1.difficulty_level, points_value := p.2.1.points_value,
           time_limit_seconds := p.2.1.time_limit_seconds,
           options := prepareQuestionOptions p.2.2 randomizeOptions (rand p.1) } : StudentQuestionView) := by
      intro p
      obtain ⟨i, q, opts⟩ := p
      simp only [Function.comp_apply, Prod.map_apply, id_eq]
      rw [prepare_ignores_is_correct]
    rw [funext hcomp]
  · intro q options randomizeOptions rand existing f
    show prepareQuestionOptions (options.map (fun o => { o with is_correct := f o })) randomizeOptions rand =
      prepareQuestionOptions options randomizeOptions rand
    exact prepare_ignores_is_correct options randomizeOptions rand f

/-- Option fixture of the C6 witness. -/
def c6WOption : AssessmentQuestionOptionRow := ⟨"o6", "q6", "B", none, true, 0⟩

/-- C6 witness: the concrete prepared option is the stripped image of
the stored option. -/
theorem student_payload_sanitization_witness :
    ∃ o ∈ [c6WOption], stripOption c6WOption = stripOption o :=
  student_payload_sanitization.2.1 [c6WOption] false (fun _ => 0)
    (stripOption c6WOption) (by decide)

/-- The text spec of the C10 witness. -/
def c10WitnessSpec : DbTextAnswerRow := ⟨"q10w", "def", false, true, some [], some []⟩

/-- C10 witness: both evaluators agree on the case-folded exact match
DEF against def. -/
theorem text_evaluators_agree_witness :
    validateTextVerdict (some c10WitnessSpec) (some "DEF") =
      some (evaluateTextAnswer (some "DEF") (some c10WitnessSpec)) :=
  text_evaluators_agree c10WitnessSpec "DEF" [] [] rfl rfl (by decide) (by decide)

end Jarvis
